import Mathlib

set_option autoImplicit false
set_option linter.unusedVariables false
set_option linter.unnecessarySeqFocus false

/-!
Shallow embedding of `src/Natrium/Graphics/DeviceImage.cpp` (namespace `Na`).
Native Vulkan handles (`vk::Image`, `vk::DeviceMemory`, `vk::Buffer`) are
modelled as `Option Nat` (null handle = `none`) or plain `Nat` handles.
`u32` arithmetic of the source wraps modulo `2 ^ 32`; it is modelled on `Nat`
with explicit `% u32lim`. Every operation that records commands into a
single-time command recording returns the list of recorded commands.
-/

namespace Natrium

/-- Number of values of a 32-bit unsigned integer; `u32` arithmetic wraps modulo this. -/
def u32lim : Nat := 4294967296

/-- Product of two `u32` values (wraps modulo `2 ^ 32`). -/
def u32mul (a b : Nat) : Nat := a * b % u32lim

/-- Sum of two `u32` values (wraps modulo `2 ^ 32`). -/
def u32add (a b : Nat) : Nat := (a + b) % u32lim

/-- Difference of two `u32` values (wraps modulo `2 ^ 32`); valid for `b ≤ u32lim`,
which holds for every `u32` value. -/
def u32sub (a b : Nat) : Nat := (a + u32lim - b) % u32lim

/-- Sentinel `VK_QUEUE_FAMILY_IGNORED` (the all-ones `u32`). -/
def vkQueueFamilyIgnored : Nat := 4294967295

/-- Bit value of `vk::ImageAspectFlagBits::eColor`. -/
def aspectColorBit : Nat := 1

/-- Bit value of `vk::AccessFlagBits::eTransferWrite`. -/
def accessTransferWrite : Nat := 4096

/-- Bit value of `vk::AccessFlagBits::eShaderRead`. -/
def accessShaderRead : Nat := 32

/-- Bit value of `vk::PipelineStageFlagBits::eTopOfPipe`. -/
def stageTopOfPipe : Nat := 1

/-- Bit value of `vk::PipelineStageFlagBits::eTransfer`. -/
def stageTransfer : Nat := 4096

/-- Bit value of `vk::PipelineStageFlagBits::eFragmentShader`. -/
def stageFragmentShader : Nat := 128

/-- The `vk::ImageLayout` values relevant to `DeviceImage` (the two members of the
transition table plus representatives of every other layout the caller could pass). -/
inductive ImageLayout where
  | undefined
  | general
  | colorAttachmentOptimal
  | depthStencilAttachmentOptimal
  | shaderReadOnlyOptimal
  | transferSrcOptimal
  | transferDstOptimal
  | preinit
deriving DecidableEq

/-- The `vk::ImageTiling` values. -/
inductive ImageTiling where
  | optimal
  | linear
deriving DecidableEq

/-- Image dimensionality `vk::ImageType`. -/
inductive ImageType where
  | e1D
  | e2D
  | e3D
deriving DecidableEq

/-- View dimensionality `vk::ImageViewType` (the subset used here). -/
inductive ImageViewType where
  | e2D
  | e2DArray
deriving DecidableEq

/-- The `vk::Extent3D` triple. -/
structure Extent3D where
  width : Nat
  height : Nat
  depth : Nat
deriving DecidableEq

/-- The `vk::Offset3D` triple. -/
structure Offset3D where
  x : Nat
  y : Nat
  z : Nat
deriving DecidableEq

/-- The `vk::ImageSubresourceRange` record. -/
structure ImageSubresourceRange where
  aspectMask : Nat
  baseMipLevel : Nat
  levelCount : Nat
  baseArrayLayer : Nat
  layerCount : Nat
deriving DecidableEq

/-- The `Na::DeviceImage` entity: the native image handle, its bound memory, the
extent, the pixel format (as its numeric enum value), and the subresource range. -/
structure DeviceImage where
  img : Option Nat
  memory : Option Nat
  extent : Extent3D
  format : Nat
  subresource_range : ImageSubresourceRange
deriving DecidableEq

/-- Accessor `this->width` (the extent's width). -/
def DeviceImage.width (d : DeviceImage) : Nat := d.extent.width

/-- Accessor `this->height` (the extent's height). -/
def DeviceImage.height (d : DeviceImage) : Nat := d.extent.height

/-- Accessor `this->layer_count()` (the subresource range's layer count). -/
def DeviceImage.layer_count (d : DeviceImage) : Nat := d.subresource_range.layerCount

/-- How `DeviceImage` construction fails: `NA_ASSERT` on a zero layer count is a
fatal assertion-style check (line 49, checked first); zero depth raises a
recoverable `std::runtime_error` (line 60). -/
inductive CtorFailure where
  | assertInvalidLayerCount
  | runtimeErrorInvalidDepth
deriving DecidableEq

/-- The fields of `vk::ImageCreateInfo` the constructor fills in (lines 53-74). -/
structure ImageCreateInfo where
  imageType : ImageType
  extent : Extent3D
  mipLevels : Nat
  arrayLayers : Nat
  format : Nat
  tiling : ImageTiling
  initialLayout : ImageLayout
  usage : Nat
  sharingMode : Nat
  samples : Nat
deriving DecidableEq

/-- Dimensionality selection from `extent.depth` (lines 55-60): depth 1 gives a 2-D
image, depth greater than 1 a 3-D image, depth 0 is invalid. -/
def imageTypeOfDepth (depth : Nat) : Option ImageType :=
  if depth = 1 then some ImageType.e2D
  else if depth > 1 then some ImageType.e3D
  else none

/-- `DeviceImage::DeviceImage` (lines 28-89). `h_img` and `h_mem` stand for the
non-null handles returned by `createImage` and `allocateMemory`. On success the
constructed image is returned together with the `vk::ImageCreateInfo` passed to
`createImage`; note line 68 sets the info's tiling to `eOptimal` unconditionally,
ignoring the `tiling` argument. -/
def mkDeviceImage (extent : Extent3D) (layer_count : Nat) (aspect_mask : Nat)
    (format : Nat) (tiling : ImageTiling) (usage : Nat) (sharing_mode : Nat)
    (sample_count : Nat) (h_img : Nat) (h_mem : Nat) :
    Except CtorFailure (DeviceImage × ImageCreateInfo) :=
  if layer_count = 0 then
    Except.error CtorFailure.assertInvalidLayerCount
  else
    match imageTypeOfDepth extent.depth with
    | none => Except.error CtorFailure.runtimeErrorInvalidDepth
    | some ty =>
        Except.ok
          ({ img := some h_img, memory := some h_mem, extent := extent,
             format := format,
             subresource_range :=
               { aspectMask := aspect_mask, baseMipLevel := 0, levelCount := 1,
                 baseArrayLayer := 0, layerCount := layer_count } },
           { imageType := ty, extent := extent, mipLevels := 1,
             arrayLayers := layer_count, format := format,
             tiling := ImageTiling.optimal, initialLayout := ImageLayout.undefined,
             usage := usage, sharingMode := sharing_mode, samples := sample_count })

/-- A device-level release performed by `destroy`. -/
inductive ReleaseAction where
  | destroyImage (h : Nat)
  | freeMemory (h : Nat)
deriving DecidableEq

/-- The all-zero state left by `memset(this, 0, sizeof(DeviceImage))` (line 101):
null handles, zero extent, format 0 (`vk::Format::eUndefined`), zero range. -/
def zeroedDeviceImage : DeviceImage :=
  { img := none, memory := none, extent := { width := 0, height := 0, depth := 0 },
    format := 0,
    subresource_range :=
      { aspectMask := 0, baseMipLevel := 0, levelCount := 0, baseArrayLayer := 0,
        layerCount := 0 } }

/-- `DeviceImage::destroy` (lines 91-102): release the image if the handle is
non-null, free the memory if non-null, then zero the whole object. Returns the
new state and the device releases performed, in order. -/
def DeviceImage.destroy (d : DeviceImage) : DeviceImage × List ReleaseAction :=
  (zeroedDeviceImage,
    (match d.img with
     | some h => [ReleaseAction.destroyImage h]
     | none => []) ++
    (match d.memory with
     | some h => [ReleaseAction.freeMemory h]
     | none => []))

/-- Move construction (lines 276-282): the new image takes every field of the
source, and the source's two handles are exchanged with null. Returns the pair
(destination, source afterwards). -/
def moveConstruct (other : DeviceImage) : DeviceImage × DeviceImage :=
  ({ img := other.img, memory := other.memory, extent := other.extent,
     format := other.format, subresource_range := other.subresource_range },
   { other with img := none, memory := none })

/-- Move assignment (lines 284-293): the destination first runs `destroy`, then
each field is assigned from the source as in move construction. Returns the
destination afterwards, the source afterwards, and the releases the destroy
performed. -/
def moveAssign (dst : DeviceImage) (other : DeviceImage) :
    DeviceImage × DeviceImage × List ReleaseAction :=
  ({ (dst.destroy).1 with
       img := other.img, memory := other.memory, extent := other.extent,
       format := other.format, subresource_range := other.subresource_range },
   { other with img := none, memory := none },
   (dst.destroy).2)

/-- The `vk::ImageMemoryBarrier` record (lines 108-117, 125-135). -/
structure ImageMemoryBarrier where
  oldLayout : ImageLayout
  newLayout : ImageLayout
  srcQueueFamilyIndex : Nat
  dstQueueFamilyIndex : Nat
  image : Option Nat
  subresourceRange : ImageSubresourceRange
  srcAccessMask : Nat
  dstAccessMask : Nat
deriving DecidableEq

/-- One recorded `pipelineBarrier` command (lines 146-153): the two stage masks,
the dependency flags, the counts of plain and buffer memory barriers, and the
image barriers passed. -/
structure BarrierCmd where
  executeStage : Nat
  waitStage : Nat
  dependencyFlags : Nat
  memoryBarrierCount : Nat
  bufferBarrierCount : Nat
  imageBarriers : List ImageMemoryBarrier
deriving DecidableEq

/-- `DeviceImage::transition_layout` (lines 104-156): on one of the two supported
pairs, the single-time command recording holds exactly the returned command
list; any other pair throws before recording anything, modelled as the
`std::runtime_error` message. -/
def DeviceImage.transition_layout (d : DeviceImage)
    (old_layout new_layout : ImageLayout) : Except String (List BarrierCmd) :=
  if old_layout = ImageLayout.undefined ∧
     new_layout = ImageLayout.transferDstOptimal then
    Except.ok
      [{ executeStage := stageTopOfPipe, waitStage := stageTransfer,
         dependencyFlags := 0, memoryBarrierCount := 0, bufferBarrierCount := 0,
         imageBarriers :=
           [{ oldLayout := old_layout, newLayout := new_layout,
              srcQueueFamilyIndex := vkQueueFamilyIgnored,
              dstQueueFamilyIndex := vkQueueFamilyIgnored,
              image := d.img, subresourceRange := d.subresource_range,
              srcAccessMask := 0, dstAccessMask := accessTransferWrite }] }]
  else if old_layout = ImageLayout.transferDstOptimal ∧
          new_layout = ImageLayout.shaderReadOnlyOptimal then
    Except.ok
      [{ executeStage := stageTransfer, waitStage := stageFragmentShader,
         dependencyFlags := 0, memoryBarrierCount := 0, bufferBarrierCount := 0,
         imageBarriers :=
           [{ oldLayout := old_layout, newLayout := new_layout,
              srcQueueFamilyIndex := vkQueueFamilyIgnored,
              dstQueueFamilyIndex := vkQueueFamilyIgnored,
              image := d.img, subresourceRange := d.subresource_range,
              srcAccessMask := accessTransferWrite,
              dstAccessMask := accessShaderRead }] }]
  else
    Except.error "Unsupported image layout transition!"

/-- The `vk::ImageSubresourceLayers` record. -/
structure ImageSubresourceLayers where
  aspectMask : Nat
  mipLevel : Nat
  baseArrayLayer : Nat
  layerCount : Nat
deriving DecidableEq

/-- The `vk::BufferImageCopy` region descriptor. -/
structure BufferImageCopy where
  bufferOffset : Nat
  bufferRowLength : Nat
  bufferImageHeight : Nat
  imageSubresource : ImageSubresourceLayers
  imageOffset : Offset3D
  imageExtent : Extent3D
deriving DecidableEq

/-- One recorded `copyBufferToImage` command: the source buffer handle, the
destination image handle, the destination layout, and the region array. -/
structure CopyCmd where
  src : Nat
  dst : Option Nat
  dstLayout : ImageLayout
  regions : List BufferImageCopy
deriving DecidableEq

/-- `DeviceImage::copy_all_from_buffer` (lines 185-210). The region array has
`layer_count() - starting_layer` entries (`u32` subtraction, line 187); region
`i` gets byte offset `u64(i * width * height * 4)` where the product is taken
in `u32` before widening (line 190), the color aspect hard-coded, destination
layer `i + starting_layer`, one layer, and extent `(width, height, 1)`
(lines 191-197). Fields never assigned keep the zero of the value-initialised
`vk::BufferImageCopy`. All regions go into one `copyBufferToImage` command. -/
def DeviceImage.copy_all_from_buffer (d : DeviceImage) (buffer : Nat)
    (starting_layer : Nat) : CopyCmd :=
  { src := buffer, dst := d.img, dstLayout := ImageLayout.transferDstOptimal,
    regions :=
      (List.range (u32sub d.layer_count starting_layer)).map (fun i =>
        { bufferOffset := u32mul (u32mul (u32mul i d.width) d.height) 4,
          bufferRowLength := 0, bufferImageHeight := 0,
          imageSubresource :=
            { aspectMask := aspectColorBit, mipLevel := 0,
              baseArrayLayer := u32add i starting_layer, layerCount := 1 },
          imageOffset := { x := 0, y := 0, z := 0 },
          imageExtent := { width := d.width, height := d.height, depth := 1 } }) }

/-- `DeviceImage::copy_from_buffers` (lines 244-274). One region template is
reused; the loop runs `i` from `starting_layer` while
`i < starting_layer + buffer_count` (the bound a `u32` sum, line 261), setting
the base array layer to `i` and recording a copy from `buffers[i]`. `buffers`
maps a pointer index to the buffer handle stored there. -/
def DeviceImage.copy_from_buffers (d : DeviceImage) (buffers : Nat → Nat)
    (buffer_count : Nat) (starting_layer : Nat) : List CopyCmd :=
  (List.range' starting_layer
      (u32add starting_layer buffer_count - starting_layer)).map (fun i =>
    { src := buffers i, dst := d.img, dstLayout := ImageLayout.transferDstOptimal,
      regions :=
        [{ bufferOffset := 0, bufferRowLength := 0, bufferImageHeight := 0,
           imageSubresource :=
             { aspectMask := d.subresource_range.aspectMask, mipLevel := 0,
               baseArrayLayer := i, layerCount := 1 },
           imageOffset := { x := 0, y := 0, z := 0 },
           imageExtent := d.extent }] })

/-- The `vk::ImageViewCreateInfo` fields `CreateImageView` fills in
(lines 312-330). -/
structure ImageViewCreateInfo where
  image : Option Nat
  viewType : ImageViewType
  format : Nat
  subresourceRange : ImageSubresourceRange
deriving DecidableEq

/-- `Na::CreateImageView` (lines 305-333). -/
def CreateImageView (img : Option Nat) (aspect_mask : Nat) (format : Nat)
    (layer_count : Nat) : Except String ImageViewCreateInfo :=
  if layer_count = 1 then
    Except.ok
      { image := img, viewType := ImageViewType.e2D, format := format,
        subresourceRange :=
          { aspectMask := aspect_mask, baseMipLevel := 0, levelCount := 1,
            baseArrayLayer := 0, layerCount := layer_count } }
  else if layer_count > 1 then
    Except.ok
      { image := img, viewType := ImageViewType.e2DArray, format := format,
        subresourceRange :=
          { aspectMask := aspect_mask, baseMipLevel := 0, levelCount := 1,
            baseArrayLayer := 0, layerCount := layer_count } }
  else
    Except.error "Failed to create Image View: Invalid layer count!"

/-- `DeviceImage::create_img_view` (lines 295-303). -/
def DeviceImage.create_img_view (d : DeviceImage) :
    Except String ImageViewCreateInfo :=
  CreateImageView d.img d.subresource_range.aspectMask d.format d.layer_count

/-- Paired lifetime: the image handle and the memory handle are both live or both
null. -/
def pairedLifetime (d : DeviceImage) : Prop := d.img.isSome = d.memory.isSome

/-- A concrete image used to instantiate theorems: live handles 7 and 11, extent
8 by 8 by 1, color aspect, 4 array layers. -/
def refImg : DeviceImage :=
  { img := some 7, memory := some 11,
    extent := { width := 8, height := 8, depth := 1 }, format := 37,
    subresource_range :=
      { aspectMask := aspectColorBit, baseMipLevel := 0, levelCount := 1,
        baseArrayLayer := 0, layerCount := 4 } }

/-- A concrete image large enough that per-layer byte offsets overflow `u32`:
65536 by 65536 pixels, 2 array layers. -/
def bigImg : DeviceImage :=
  { img := some 3, memory := some 5,
    extent := { width := 65536, height := 65536, depth := 1 }, format := 37,
    subresource_range :=
      { aspectMask := aspectColorBit, baseMipLevel := 0, levelCount := 1,
        baseArrayLayer := 0, layerCount := 2 } }

/-- The chained `u32` products of line 190 equal the full product reduced once
modulo `2 ^ 32`. -/
theorem u32mul_chain (i w h : Nat) :
    u32mul (u32mul (u32mul i w) h) 4 = i * w * h * 4 % u32lim := by
  unfold u32mul
  rw [Nat.mod_mul_mod (a := i * w) (b := h), Nat.mod_mul_mod]

/-- `u32` subtraction agrees with truncated subtraction on in-range values. -/
theorem u32sub_of_le (a b : Nat) (hb : b ≤ a) (ha : a < u32lim) :
    u32sub a b = a - b := by
  unfold u32sub u32lim at *
  omega

/-- `u32` addition agrees with addition on in-range values. -/
theorem u32add_of_lt (a b : Nat) (h : a + b < u32lim) : u32add a b = a + b := by
  unfold u32add
  exact Nat.mod_eq_of_lt h

/-- The region at index `i` built by `copy_all_from_buffer`: the `u32`-truncated
byte offset, hard-coded color aspect, destination layer `i + starting_layer`
(as a `u32` sum), one layer, and extent `(width, height, 1)`. -/
theorem copy_all_region_eq (d : DeviceImage) (buffer s i : Nat)
    (hi : i < (d.copy_all_from_buffer buffer s).regions.length) :
    (d.copy_all_from_buffer buffer s).regions.get ⟨i, hi⟩ =
      { bufferOffset := i * d.width * d.height * 4 % u32lim,
        bufferRowLength := 0, bufferImageHeight := 0,
        imageSubresource :=
          { aspectMask := aspectColorBit, mipLevel := 0,
            baseArrayLayer := u32add i s, layerCount := 1 },
        imageOffset := { x := 0, y := 0, z := 0 },
        imageExtent := { width := d.width, height := d.height, depth := 1 } } := by
  simp only [DeviceImage.copy_all_from_buffer, List.get_eq_getElem,
    List.getElem_map] at hi ⊢
  simp [List.getElem_range, u32mul_chain]

/-- C4: construction with zero depth (and a nonzero layer count, since the fatal
assertion runs first) fails with the recoverable runtime error; construction
with a zero layer count fails with the fatal assertion-style check; on success
the image is 2-D exactly when the depth is 1 and 3-D exactly when the depth is
greater than 1. -/
theorem C4_construction_errors_and_dimensionality
    (extent : Extent3D) (layer_count aspect_mask format : Nat)
    (tiling : ImageTiling) (usage sharing_mode sample_count h_img h_mem : Nat) :
    (extent.depth = 0 → 0 < layer_count →
      mkDeviceImage extent layer_count aspect_mask format tiling usage
          sharing_mode sample_count h_img h_mem
        = Except.error CtorFailure.runtimeErrorInvalidDepth)
    ∧ (layer_count = 0 →
      mkDeviceImage extent layer_count aspect_mask format tiling usage
          sharing_mode sample_count h_img h_mem
        = Except.error CtorFailure.assertInvalidLayerCount)
    ∧ (∀ d0 info,
        mkDeviceImage extent layer_count aspect_mask format tiling usage
            sharing_mode sample_count h_img h_mem = Except.ok (d0, info) →
        (info.imageType = ImageType.e2D ↔ extent.depth = 1)
        ∧ (info.imageType = ImageType.e3D ↔ 1 < extent.depth)) := by
  refine ⟨?_, ?_, ?_⟩
  · intro hd hl
    have hl0 : ¬ layer_count = 0 := by omega
    simp [mkDeviceImage, imageTypeOfDepth, hd, hl0]
  · intro hl
    simp [mkDeviceImage, hl]
  · intro d0 info h
    have hl0 : ¬ layer_count = 0 := by
      intro h0
      simp [mkDeviceImage, h0] at h
    rcases hdep : imageTypeOfDepth extent.depth with _ | ty
    · simp [mkDeviceImage, hl0, hdep] at h
    · simp [mkDeviceImage, hl0, hdep] at h
      obtain ⟨h1, h2⟩ := h
      subst h2
      unfold imageTypeOfDepth at hdep
      split_ifs at hdep with hd1 hd2
      · injection hdep with hty
        subst hty
        constructor <;> simp [hd1]
      · injection hdep with hty
        subst hty
        constructor <;> simp [hd2] <;> omega

/-- C5: the constructor's tiling argument has no effect on the result — any two
tiling values give identical results — and on success the create info records
optimal tiling. -/
theorem C5_tiling_ignored (extent : Extent3D)
    (layer_count aspect_mask format : Nat) (t t' : ImageTiling)
    (usage sharing_mode sample_count h_img h_mem : Nat) :
    mkDeviceImage extent layer_count aspect_mask format t usage sharing_mode
        sample_count h_img h_mem
      = mkDeviceImage extent layer_count aspect_mask format t' usage sharing_mode
        sample_count h_img h_mem
    ∧ (∀ d0 info,
        mkDeviceImage extent layer_count aspect_mask format t usage sharing_mode
            sample_count h_img h_mem = Except.ok (d0, info) →
        info.tiling = ImageTiling.optimal) := by
  constructor
  · rfl
  · intro d0 info h
    by_cases hl : layer_count = 0
    · simp [mkDeviceImage, hl] at h
    · rcases hdep : imageTypeOfDepth extent.depth with _ | ty
      · simp [mkDeviceImage, hl, hdep] at h
      · simp [mkDeviceImage, hl, hdep] at h
        obtain ⟨h1, h2⟩ := h
        subst h2
        rfl

/-- C6: move construction transfers the handle, the memory, the extent, the format
and the subresource range, and nulls the source's handles, so destroying the
moved-from source performs no device release; move assignment equals destroying
the destination (performing its releases) followed by the same transfer. -/
theorem C6_move_transfer (A dst : DeviceImage) :
    ((moveConstruct A).1.img = A.img
      ∧ (moveConstruct A).1.memory = A.memory
      ∧ (moveConstruct A).1.extent = A.extent
      ∧ (moveConstruct A).1.format = A.format
      ∧ (moveConstruct A).1.subresource_range = A.subresource_range)
    ∧ ((moveConstruct A).2.img = none ∧ (moveConstruct A).2.memory = none)
    ∧ ((moveConstruct A).2.destroy.2 = [])
    ∧ moveAssign dst A
        = ((moveConstruct A).1, (moveConstruct A).2, (dst.destroy).2) := by
  exact ⟨⟨rfl, rfl, rfl, rfl, rfl⟩, ⟨rfl, rfl⟩, rfl, rfl⟩

/-- C7: destroy zeroes every field, releases the image exactly when the handle is
non-null and frees the memory exactly when non-null (each exactly once), and is
idempotent: destroying the resulting state performs no release and changes
nothing. -/
theorem C7_destroy_idempotent_total (d : DeviceImage) :
    (d.destroy).1 = zeroedDeviceImage
    ∧ (d.img = none → ∀ h, ReleaseAction.destroyImage h ∉ (d.destroy).2)
    ∧ (d.memory = none → ∀ h, ReleaseAction.freeMemory h ∉ (d.destroy).2)
    ∧ (∀ h, d.img = some h →
        (d.destroy).2.count (ReleaseAction.destroyImage h) = 1)
    ∧ (∀ h, d.memory = some h →
        (d.destroy).2.count (ReleaseAction.freeMemory h) = 1)
    ∧ (d.destroy).1.destroy = ((d.destroy).1, []) := by
  obtain ⟨i, m, e, f, r⟩ := d
  refine ⟨rfl, ?_, ?_, ?_, ?_, rfl⟩
  · rintro rfl h
    cases m <;> simp [DeviceImage.destroy]
  · rintro rfl h
    cases i <;> simp [DeviceImage.destroy]
  · rintro h rfl
    cases m <;> simp [DeviceImage.destroy, List.count_cons, List.count_nil]
  · rintro h rfl
    cases i <;> simp [DeviceImage.destroy, List.count_cons, List.count_nil]

/-- C9: the paired-lifetime invariant (image handle and memory handle both live or
both null) holds after construction, after destroy, and for both sides of move
construction and of move assignment, given the moved-from source satisfied it. -/
theorem C9_paired_lifetime_preserved (extent : Extent3D)
    (layer_count aspect_mask format : Nat) (tiling : ImageTiling)
    (usage sharing_mode sample_count h_img h_mem : Nat) (d A dst : DeviceImage) :
    (∀ d0 info,
      mkDeviceImage extent layer_count aspect_mask format tiling usage
          sharing_mode sample_count h_img h_mem = Except.ok (d0, info) →
      pairedLifetime d0)
    ∧ pairedLifetime (d.destroy).1
    ∧ (pairedLifetime A → pairedLifetime (moveConstruct A).1)
    ∧ pairedLifetime (moveConstruct A).2
    ∧ (pairedLifetime A → pairedLifetime (moveAssign dst A).1)
    ∧ pairedLifetime (moveAssign dst A).2.1 := by
  refine ⟨?_, rfl, ?_, rfl, ?_, rfl⟩
  · intro d0 info h
    by_cases hl : layer_count = 0
    · simp [mkDeviceImage, hl] at h
    · rcases hdep : imageTypeOfDepth extent.depth with _ | ty
      · simp [mkDeviceImage, hl, hdep] at h
      · simp [mkDeviceImage, hl, hdep] at h
        obtain ⟨h1, h2⟩ := h
        subst h1
        rfl
  · intro hA
    exact hA
  · intro hA
    exact hA

/-- C3: `transition_layout` succeeds exactly for the pairs (Undefined,
TransferDestination) and (TransferDestination, ShaderReadOnly), recording
exactly one pipeline barrier over the image's full subresource range with the
table's access masks and stages (no source access, transfer-write destination,
top-of-pipe to transfer for the first pair; transfer-write source, shader-read
destination, transfer to fragment-shader for the second); every other pair
fails with the unsupported-transition error. -/
theorem C3_transition_layout_table (d : DeviceImage) (a b : ImageLayout) :
    (a = ImageLayout.undefined → b = ImageLayout.transferDstOptimal →
      d.transition_layout a b = Except.ok
        [{ executeStage := stageTopOfPipe, waitStage := stageTransfer,
           dependencyFlags := 0, memoryBarrierCount := 0, bufferBarrierCount := 0,
           imageBarriers :=
             [{ oldLayout := ImageLayout.undefined,
                newLayout := ImageLayout.transferDstOptimal,
                srcQueueFamilyIndex := vkQueueFamilyIgnored,
                dstQueueFamilyIndex := vkQueueFamilyIgnored,
                image := d.img, subresourceRange := d.subresource_range,
                srcAccessMask := 0, dstAccessMask := accessTransferWrite }] }])
    ∧ (a = ImageLayout.transferDstOptimal → b = ImageLayout.shaderReadOnlyOptimal →
      d.transition_layout a b = Except.ok
        [{ executeStage := stageTransfer, waitStage := stageFragmentShader,
           dependencyFlags := 0, memoryBarrierCount := 0, bufferBarrierCount := 0,
           imageBarriers :=
             [{ oldLayout := ImageLayout.transferDstOptimal,
                newLayout := ImageLayout.shaderReadOnlyOptimal,
                srcQueueFamilyIndex := vkQueueFamilyIgnored,
                dstQueueFamilyIndex := vkQueueFamilyIgnored,
                image := d.img, subresourceRange := d.subresource_range,
                srcAccessMask := accessTransferWrite,
                dstAccessMask := accessShaderRead }] }])
    ∧ (¬(a = ImageLayout.undefined ∧ b = ImageLayout.transferDstOptimal) →
       ¬(a = ImageLayout.transferDstOptimal
          ∧ b = ImageLayout.shaderReadOnlyOptimal) →
      d.transition_layout a b
        = Except.error "Unsupported image layout transition!") := by
  refine ⟨?_, ?_, ?_⟩
  · rintro rfl rfl
    rfl
  · rintro rfl rfl
    rfl
  · intro h1 h2
    unfold DeviceImage.transition_layout
    rw [if_neg h1, if_neg h2]

/-- Witness for C3 on the concrete reference image: both supported transitions,
and one unsupported pair. -/
theorem C3_transition_layout_table_witness :
    refImg.transition_layout ImageLayout.undefined ImageLayout.transferDstOptimal
      = Except.ok
        [{ executeStage := stageTopOfPipe, waitStage := stageTransfer,
           dependencyFlags := 0, memoryBarrierCount := 0, bufferBarrierCount := 0,
           imageBarriers :=
             [{ oldLayout := ImageLayout.undefined,
                newLayout := ImageLayout.transferDstOptimal,
                srcQueueFamilyIndex := vkQueueFamilyIgnored,
                dstQueueFamilyIndex := vkQueueFamilyIgnored,
                image := refImg.img, subresourceRange := refImg.subresource_range,
                srcAccessMask := 0, dstAccessMask := accessTransferWrite }] }]
    ∧ refImg.transition_layout ImageLayout.transferDstOptimal
        ImageLayout.shaderReadOnlyOptimal
      = Except.ok
        [{ executeStage := stageTransfer, waitStage := stageFragmentShader,
           dependencyFlags := 0, memoryBarrierCount := 0, bufferBarrierCount := 0,
           imageBarriers :=
             [{ oldLayout := ImageLayout.transferDstOptimal,
                newLayout := ImageLayout.shaderReadOnlyOptimal,
                srcQueueFamilyIndex := vkQueueFamilyIgnored,
                dstQueueFamilyIndex := vkQueueFamilyIgnored,
                image := refImg.img, subresourceRange := refImg.subresource_range,
                srcAccessMask := accessTransferWrite,
                dstAccessMask := accessShaderRead }] }]
    ∧ refImg.transition_layout ImageLayout.shaderReadOnlyOptimal
        ImageLayout.undefined
      = Except.error "Unsupported image layout transition!" :=
  ⟨(C3_transition_layout_table refImg ImageLayout.undefined
      ImageLayout.transferDstOptimal).1 rfl rfl,
   (C3_transition_layout_table refImg ImageLayout.transferDstOptimal
      ImageLayout.shaderReadOnlyOptimal).2.1 rfl rfl,
   (C3_transition_layout_table refImg ImageLayout.shaderReadOnlyOptimal
      ImageLayout.undefined).2.2 (by decide) (by decide)⟩

/-- C8: a successfully created view is 2-D exactly for layer count 1 and
2-D-array exactly for layer count above 1, creation fails with the raised
runtime error exactly for layer count 0, and the view's range is fixed to base
mip 0, one mip level, base layer 0; `create_img_view` inherits this with the
image's layer count. -/
theorem C8_image_view_type (img : Option Nat)
    (aspect_mask format layer_count : Nat) (d : DeviceImage) :
    (∀ v, CreateImageView img aspect_mask format layer_count = Except.ok v →
      (v.viewType = ImageViewType.e2D ↔ layer_count = 1)
      ∧ (v.viewType = ImageViewType.e2DArray ↔ 1 < layer_count)
      ∧ v.subresourceRange.baseMipLevel = 0
      ∧ v.subresourceRange.levelCount = 1
      ∧ v.subresourceRange.baseArrayLayer = 0
      ∧ v.subresourceRange.layerCount = layer_count)
    ∧ (CreateImageView img aspect_mask format layer_count
        = Except.error "Failed to create Image View: Invalid layer count!"
       ↔ layer_count = 0)
    ∧ (∀ v, d.create_img_view = Except.ok v →
      (v.viewType = ImageViewType.e2D ↔ d.layer_count = 1)
      ∧ (v.viewType = ImageViewType.e2DArray ↔ 1 < d.layer_count)) := by
  refine ⟨?_, ?_, ?_⟩
  · intro v h
    rcases layer_count with _ | _ | n
    · simp [CreateImageView] at h
    · simp [CreateImageView] at h
      subst h
      simp
    · simp [CreateImageView] at h
      subst h
      simp
  · rcases layer_count with _ | _ | n <;> simp [CreateImageView]
  · intro v h
    unfold DeviceImage.create_img_view at h
    rcases hn : d.layer_count with _ | _ | n <;> rw [hn] at h
    · simp [CreateImageView] at h
    · simp [CreateImageView] at h
      subst h
      simp [hn]
    · simp [CreateImageView] at h
      subst h
      simp [hn]

/-- The view info created over the single-layer case in the C8 witness. -/
def viewE2D : ImageViewCreateInfo :=
  { image := some 7, viewType := ImageViewType.e2D, format := 37,
    subresourceRange :=
      { aspectMask := 1, baseMipLevel := 0, levelCount := 1,
        baseArrayLayer := 0, layerCount := 1 } }

/-- The view info `create_img_view` yields over `refImg` (4 layers). -/
def viewRef : ImageViewCreateInfo :=
  { image := some 7, viewType := ImageViewType.e2DArray, format := 37,
    subresourceRange :=
      { aspectMask := 1, baseMipLevel := 0, levelCount := 1,
        baseArrayLayer := 0, layerCount := 4 } }

/-- Witness for C8: a one-layer view, the zero-layer failure, and the view over
the four-layer reference image. -/
theorem C8_image_view_type_witness :
    ((viewE2D.viewType = ImageViewType.e2D ↔ (1 : Nat) = 1)
      ∧ (viewE2D.viewType = ImageViewType.e2DArray ↔ 1 < (1 : Nat))
      ∧ viewE2D.subresourceRange.baseMipLevel = 0
      ∧ viewE2D.subresourceRange.levelCount = 1
      ∧ viewE2D.subresourceRange.baseArrayLayer = 0
      ∧ viewE2D.subresourceRange.layerCount = 1)
    ∧ (CreateImageView (some 7) 1 37 0
        = Except.error "Failed to create Image View: Invalid layer count!")
    ∧ ((viewRef.viewType = ImageViewType.e2D ↔ refImg.layer_count = 1)
      ∧ (viewRef.viewType = ImageViewType.e2DArray ↔ 1 < refImg.layer_count)) :=
  ⟨(C8_image_view_type (some 7) 1 37 1 refImg).1 viewE2D rfl,
   (C8_image_view_type (some 7) 1 37 0 refImg).2.1.mpr rfl,
   (C8_image_view_type (some 7) 1 37 4 refImg).2.2 viewRef rfl⟩

/-- The image produced by the reference construction call (it coincides with
`refImg`), and the create info recorded alongside it. -/
def refInfo : ImageCreateInfo :=
  { imageType := ImageType.e2D, extent := { width := 8, height := 8, depth := 1 },
    mipLevels := 1, arrayLayers := 4, format := 37, tiling := ImageTiling.optimal,
    initialLayout := ImageLayout.undefined, usage := 9, sharingMode := 0,
    samples := 1 }

/-- Witness for C4: a zero-depth failure, a zero-layer-count failure, and the
2-D outcome of a successful depth-1 construction. -/
theorem C4_construction_errors_and_dimensionality_witness :
    (mkDeviceImage { width := 8, height := 8, depth := 0 } 4 1 37
        ImageTiling.linear 9 0 1 7 11
      = Except.error CtorFailure.runtimeErrorInvalidDepth)
    ∧ (mkDeviceImage { width := 8, height := 8, depth := 1 } 0 1 37
        ImageTiling.linear 9 0 1 7 11
      = Except.error CtorFailure.assertInvalidLayerCount)
    ∧ ((refInfo.imageType = ImageType.e2D
        ↔ ({ width := 8, height := 8, depth := 1 } : Extent3D).depth = 1)
      ∧ (refInfo.imageType = ImageType.e3D
        ↔ 1 < ({ width := 8, height := 8, depth := 1 } : Extent3D).depth)) :=
  ⟨(C4_construction_errors_and_dimensionality
      { width := 8, height := 8, depth := 0 } 4 1 37 ImageTiling.linear
      9 0 1 7 11).1 rfl (by decide),
   (C4_construction_errors_and_dimensionality
      { width := 8, height := 8, depth := 1 } 0 1 37 ImageTiling.linear
      9 0 1 7 11).2.1 rfl,
   (C4_construction_errors_and_dimensionality
      { width := 8, height := 8, depth := 1 } 4 1 37 ImageTiling.linear
      9 0 1 7 11).2.2 refImg refInfo rfl⟩

/-- Witness for C5: linear versus optimal tiling requests coincide, and the
recorded info holds optimal tiling. -/
theorem C5_tiling_ignored_witness :
    (mkDeviceImage { width := 8, height := 8, depth := 1 } 4 1 37
        ImageTiling.linear 9 0 1 7 11
      = mkDeviceImage { width := 8, height := 8, depth := 1 } 4 1 37
        ImageTiling.optimal 9 0 1 7 11)
    ∧ refInfo.tiling = ImageTiling.optimal :=
  ⟨(C5_tiling_ignored { width := 8, height := 8, depth := 1 } 4 1 37
      ImageTiling.linear ImageTiling.optimal 9 0 1 7 11).1,
   (C5_tiling_ignored { width := 8, height := 8, depth := 1 } 4 1 37
      ImageTiling.linear ImageTiling.optimal 9 0 1 7 11).2 refImg refInfo rfl⟩

/-- Witness for C7 on the reference image and on an already-zeroed image. -/
theorem C7_destroy_idempotent_total_witness :
    ((refImg.destroy).1 = zeroedDeviceImage)
    ∧ ((refImg.destroy).2.count (ReleaseAction.destroyImage 7) = 1)
    ∧ ((refImg.destroy).2.count (ReleaseAction.freeMemory 11) = 1)
    ∧ (ReleaseAction.destroyImage 3 ∉ (zeroedDeviceImage.destroy).2)
    ∧ (ReleaseAction.freeMemory 3 ∉ (zeroedDeviceImage.destroy).2)
    ∧ ((refImg.destroy).1.destroy = ((refImg.destroy).1, [])) :=
  ⟨(C7_destroy_idempotent_total refImg).1,
   (C7_destroy_idempotent_total refImg).2.2.2.1 7 rfl,
   (C7_destroy_idempotent_total refImg).2.2.2.2.1 11 rfl,
   (C7_destroy_idempotent_total zeroedDeviceImage).2.1 rfl 3,
   (C7_destroy_idempotent_total zeroedDeviceImage).2.2.1 rfl 3,
   (C7_destroy_idempotent_total refImg).2.2.2.2.2⟩

/-- Witness for C9 on the reference image: the invariant holds at every
lifecycle point of the claim. -/
theorem C9_paired_lifetime_preserved_witness :
    pairedLifetime refImg
    ∧ pairedLifetime (refImg.destroy).1
    ∧ pairedLifetime (moveConstruct refImg).1
    ∧ pairedLifetime (moveConstruct refImg).2
    ∧ pairedLifetime (moveAssign zeroedDeviceImage refImg).1
    ∧ pairedLifetime (moveAssign zeroedDeviceImage refImg).2.1 :=
  ⟨(C9_paired_lifetime_preserved { width := 8, height := 8, depth := 1 } 4 1 37
      ImageTiling.linear 9 0 1 7 11 refImg refImg zeroedDeviceImage).1
      refImg refInfo rfl,
   (C9_paired_lifetime_preserved { width := 8, height := 8, depth := 1 } 4 1 37
      ImageTiling.linear 9 0 1 7 11 refImg refImg zeroedDeviceImage).2.1,
   (C9_paired_lifetime_preserved { width := 8, height := 8, depth := 1 } 4 1 37
      ImageTiling.linear 9 0 1 7 11 refImg refImg zeroedDeviceImage).2.2.1 rfl,
   (C9_paired_lifetime_preserved { width := 8, height := 8, depth := 1 } 4 1 37
      ImageTiling.linear 9 0 1 7 11 refImg refImg zeroedDeviceImage).2.2.2.1,
   (C9_paired_lifetime_preserved { width := 8, height := 8, depth := 1 } 4 1 37
      ImageTiling.linear 9 0 1 7 11 refImg refImg zeroedDeviceImage).2.2.2.2.1 rfl,
   (C9_paired_lifetime_preserved { width := 8, height := 8, depth := 1 } 4 1 37
      ImageTiling.linear 9 0 1 7 11 refImg refImg zeroedDeviceImage).2.2.2.2.2⟩

/-- C1 fails as stated: with one buffer starting at layer 1 over the identity
buffer array, the single recorded command copies from the buffer at pointer
index 1 — not from the 0-th supplied buffer, whose handle is 0; and with
`starting_layer = 4294967295` and two buffers the `u32` loop bound wraps, so no
command is recorded rather than two. -/
theorem C1_copy_from_buffers_counterexample :
    ((refImg.copy_from_buffers (fun n => n) 1 1).map CopyCmd.src = [1]
      ∧ (1 : Nat) ≠ (fun n : Nat => n) 0)
    ∧ ((refImg.copy_from_buffers (fun n => n) 2 4294967295).length = 0
      ∧ (0 : Nat) ≠ 2) :=
  ⟨⟨rfl, by decide⟩, ⟨rfl, by decide⟩⟩

/-- C1 (amended): provided `starting_layer + buffer_count` does not overflow
`u32`, exactly `buffer_count` copy commands are recorded in one recording, the
`j`-th copying from the buffer at pointer index `starting_layer + j` into the
single destination array layer `starting_layer + j`, in increasing index
order. -/
theorem C1_copy_from_buffers_amended (d : DeviceImage) (buffers : Nat → Nat)
    (k s : Nat) (hks : s + k < u32lim) :
    (d.copy_from_buffers buffers k s).length = k
    ∧ ∀ j, (hj : j < (d.copy_from_buffers buffers k s).length) →
        (d.copy_from_buffers buffers k s).get ⟨j, hj⟩ =
          { src := buffers (s + j), dst := d.img,
            dstLayout := ImageLayout.transferDstOptimal,
            regions :=
              [{ bufferOffset := 0, bufferRowLength := 0, bufferImageHeight := 0,
                 imageSubresource :=
                   { aspectMask := d.subresource_range.aspectMask, mipLevel := 0,
                     baseArrayLayer := s + j, layerCount := 1 },
                 imageOffset := { x := 0, y := 0, z := 0 },
                 imageExtent := d.extent }] } := by
  have hb : u32add s k - s = k := by
    rw [u32add_of_lt s k hks]
    omega
  constructor
  · simp [DeviceImage.copy_from_buffers, hb]
  · intro j hj
    simp only [DeviceImage.copy_from_buffers, hb, List.get_eq_getElem,
      List.getElem_map] at hj ⊢
    simp [List.getElem_range']

/-- Witness for the amended C1: two buffers starting at layer 1 of the reference
image give two commands; the second copies from the buffer at pointer index 2. -/
theorem C1_copy_from_buffers_amended_witness :
    1 + 2 < u32lim
    ∧ (refImg.copy_from_buffers (fun n => n + 100) 2 1).length = 2
    ∧ ((refImg.copy_from_buffers (fun n => n + 100) 2 1).get ⟨1, by decide⟩).src
        = 102 :=
  ⟨by decide,
   (C1_copy_from_buffers_amended refImg (fun n => n + 100) 2 1 (by decide)).1,
   by
     have h := (C1_copy_from_buffers_amended refImg (fun n => n + 100) 2 1
       (by decide)).2 1 (by decide)
     rw [h]⟩

/-- C2 fails as stated: on the 65536-by-65536 two-layer image the region at
index 1 stores byte offset `(1 * 65536 * 65536 * 4) mod 2 ^ 32 = 0`, not the
true product `1 * width * height * 4 = 17179869184`. -/
theorem C2_copy_all_from_buffer_counterexample :
    ((bigImg.copy_all_from_buffer 99 0).regions.map BufferImageCopy.bufferOffset
      = [0, 0])
    ∧ (0 : Nat) ≠ 1 * bigImg.width * bigImg.height * 4 :=
  ⟨rfl, by decide⟩

/-- C2 (amended): for `starting_layer ≤ N < 2 ^ 32` the single batched copy
command holds exactly `N - starting_layer` regions; the region at index `i` has
buffer byte offset `(i * width * height * 4) mod 2 ^ 32` — the true product
whenever that product is below `2 ^ 32` — addresses exactly the one array layer
`i + starting_layer`, is fixed to the color aspect, and has image extent
`(width, height, 1)` regardless of the image's recorded aspect mask. -/
theorem C2_copy_all_from_buffer_amended (d : DeviceImage) (buffer s : Nat)
    (hs : s ≤ d.layer_count) (hN : d.layer_count < u32lim) :
    ((d.copy_all_from_buffer buffer s).regions.length = d.layer_count - s)
    ∧ (∀ i, (hi : i < (d.copy_all_from_buffer buffer s).regions.length) →
        (d.copy_all_from_buffer buffer s).regions.get ⟨i, hi⟩ =
          { bufferOffset := i * d.width * d.height * 4 % u32lim,
            bufferRowLength := 0, bufferImageHeight := 0,
            imageSubresource :=
              { aspectMask := aspectColorBit, mipLevel := 0,
                baseArrayLayer := i + s, layerCount := 1 },
            imageOffset := { x := 0, y := 0, z := 0 },
            imageExtent := { width := d.width, height := d.height, depth := 1 } })
    ∧ (d.copy_all_from_buffer buffer s).src = buffer
    ∧ (d.copy_all_from_buffer buffer s).dst = d.img
    ∧ (d.copy_all_from_buffer buffer s).dstLayout
        = ImageLayout.transferDstOptimal := by
  have hlen : (d.copy_all_from_buffer buffer s).regions.length
      = d.layer_count - s := by
    simp [DeviceImage.copy_all_from_buffer, u32sub_of_le _ _ hs hN]
  refine ⟨hlen, ?_, rfl, rfl, rfl⟩
  intro i hi
  rw [copy_all_region_eq]
  have hib : i < d.layer_count - s := by
    rw [hlen] at hi
    exact hi
  have hadd : u32add i s = i + s := by
    apply u32add_of_lt
    unfold u32lim at *
    omega
  rw [hadd]

/-- Witness for the amended C2: starting at layer 1 of the four-layer reference
image gives three regions; the region at index 2 targets layer 3 with the
expected offset and extent. -/
theorem C2_copy_all_from_buffer_amended_witness :
    (1 ≤ refImg.layer_count ∧ refImg.layer_count < u32lim)
    ∧ (refImg.copy_all_from_buffer 99 1).regions.length = refImg.layer_count - 1
    ∧ (refImg.copy_all_from_buffer 99 1).regions.get ⟨2, by decide⟩ =
        { bufferOffset := 2 * refImg.width * refImg.height * 4 % u32lim,
          bufferRowLength := 0, bufferImageHeight := 0,
          imageSubresource :=
            { aspectMask := aspectColorBit, mipLevel := 0,
              baseArrayLayer := 2 + 1, layerCount := 1 },
          imageOffset := { x := 0, y := 0, z := 0 },
          imageExtent := { width := refImg.width, height := refImg.height,
                           depth := 1 } } :=
  ⟨⟨by decide, by decide⟩,
   (C2_copy_all_from_buffer_amended refImg 99 1 (by decide) (by decide)).1,
   by
     have h := (C2_copy_all_from_buffer_amended refImg 99 1 (by decide)
       (by decide)).2.1 2 (by decide)
     rw [h]⟩

/-- C10: the stored per-region byte offset is the product of `i`, the width, the
height and 4 taken in 32-bit arithmetic before widening: it always equals the
true product modulo `2 ^ 32`, and whenever the true product is at least
`2 ^ 32` the stored offset is not the true product. -/
theorem C10_offset_u32_truncated (d : DeviceImage) (buffer s i : Nat)
    (hi : i < (d.copy_all_from_buffer buffer s).regions.length) :
    (((d.copy_all_from_buffer buffer s).regions.get ⟨i, hi⟩).bufferOffset
      = i * d.width * d.height * 4 % u32lim)
    ∧ (u32lim ≤ i * d.width * d.height * 4 →
      ((d.copy_all_from_buffer buffer s).regions.get ⟨i, hi⟩).bufferOffset
        ≠ i * d.width * d.height * 4) := by
  rw [copy_all_region_eq]
  refine ⟨rfl, ?_⟩
  intro hbig
  have hmod : i * d.width * d.height * 4 % u32lim < u32lim := by
    apply Nat.mod_lt
    unfold u32lim
    omega
  show i * d.width * d.height * 4 % u32lim ≠ i * d.width * d.height * 4
  omega

/-- Witness for C10: region 1 of the 65536-by-65536 image has a stored offset
that is not the true byte product. -/
theorem C10_offset_u32_truncated_witness :
    u32lim ≤ 1 * bigImg.width * bigImg.height * 4
    ∧ ((bigImg.copy_all_from_buffer 99 0).regions.get ⟨1, by decide⟩).bufferOffset
        ≠ 1 * bigImg.width * bigImg.height * 4 :=
  ⟨by decide,
   (C10_offset_u32_truncated bigImg 99 0 1 (by decide)).2 (by decide)⟩

end Natrium
